import Mathlib

/-!
Verification development for the orchids account-provisioning script
(`src/register/orchids_register.py`).

The script's pure decision logic is shallowly embedded here:
* the one-time-code extraction pipeline of `wait_for_code` (HTML unescape,
  tag stripping, whitespace collapse, strict six-digit search);
* the mailbox poll loop of `wait_for_code` with its dedup set;
* the bounded challenge-probe loop of `register_one_account`;
* the `__client` cookie selection loop;
* `upload_to_server`'s status classification;
* the control flow of `register_one_account` (try/except/finally) and of the
  `__main__` batch loop, modelled as functions of an environment record that
  fixes the outcome of every external, fallible step (browser driver calls,
  HTTP polls, cookie contents).
-/

namespace Orchids

/-- Python `\s` on the ASCII range (space, tab, newline, carriage return,
vertical tab, form feed), as used by `re.sub(r'\s+', ' ', ...)` and
`str.strip()` in `wait_for_code`. -/
def isPySpace (c : Char) : Bool :=
  c == ' ' || c == '\t' || c == '\n' || c == '\r' || c == '\x0b' || c == '\x0c'

/-- The negative lookbehind `(?<!\d)` of the strict regex
`(?<!\d)(\d{6})(?!\d)` (line 80): the character before the match position,
if any, is not a digit. -/
def noLeadDigit : Option Char → Bool
  | none => true
  | some c => !c.isDigit

/-- The negative lookahead `(?!\d)`: the character after the candidate run,
if any, is not a digit. -/
def noTailDigit : List Char → Bool
  | [] => true
  | c :: _ => !c.isDigit

/-- `re.search(r'(?<!\d)(\d{6})(?!\d)', source)` followed by `group(1)`:
scan positions left to right, and at the first position where a six-digit
run starts that is preceded and followed by a non-digit (or the string
boundary), return that run.  `prev` is the character before the current
position. -/
def scanCode : Option Char → List Char → Option (List Char)
  | _, [] => none
  | prev, c :: rest =>
    let six := c :: rest.take 5
    if noLeadDigit prev && six.length == 6 && six.all Char.isDigit
        && noTailDigit (rest.drop 5) then
      some six
    else
      scanCode (some c) rest

/-- The strict six-digit search applied to a whole string
(`re.search(regex_strict, source)` with `match.group(1)`). -/
def strictCode (s : String) : Option String :=
  (scanCode none s.data).map fun l => String.mk l

/-- Python's `html.unescape` (line 97), restricted to the named/numeric
entity forms that can occur in this pipeline's inputs; all other text is
passed through unchanged. -/
def unescapeHtml : List Char → List Char
  | '&' :: 'a' :: 'm' :: 'p' :: ';' :: rest => '&' :: unescapeHtml rest
  | '&' :: 'l' :: 't' :: ';' :: rest => '<' :: unescapeHtml rest
  | '&' :: 'g' :: 't' :: ';' :: rest => '>' :: unescapeHtml rest
  | '&' :: 'q' :: 'u' :: 'o' :: 't' :: ';' :: rest => '"' :: unescapeHtml rest
  | '&' :: '#' :: '3' :: '9' :: ';' :: rest => '\x27' :: unescapeHtml rest
  | '&' :: 'n' :: 'b' :: 's' :: 'p' :: ';' :: rest => '\xA0' :: unescapeHtml rest
  | c :: rest => c :: unescapeHtml rest
  | [] => []

/-- One-pass engine for `re.sub(r'<[^>]+>', ' ', text)` (line 98).
The first argument is `none` outside a candidate tag; after reading a `'<'`
it is `some buf` with `buf` the (reversed) characters read since that `'<'`,
which by construction contain no `'>'`.
* On `'>'` with a nonempty buffer, the regex `<[^>]+>` has matched from the
  buffered `'<'` and the whole match is replaced by one space.
* On `'>'` with an empty buffer (`<>`), `[^>]+` has no character to consume,
  so the `'<'` and `'>'` are kept literally.
* If input ends while buffering, no `'>'` follows that `'<'` anywhere, so no
  match can start at or after it: everything is kept literally. -/
def stripGo : Option (List Char) → List Char → List Char
  | none, [] => []
  | none, c :: rest =>
    if c == '<' then stripGo (some []) rest else c :: stripGo none rest
  | some buf, [] => '<' :: buf.reverse
  | some buf, c :: rest =>
    if c == '>' then
      if buf.isEmpty then '<' :: '>' :: stripGo none rest
      else ' ' :: stripGo none rest
    else stripGo (some (c :: buf)) rest

/-- `re.sub(r'<[^>]+>', ' ', text)` (line 98): each non-overlapping
occurrence of `<`, one or more non-`>` characters, `>` is replaced by a
single space; a `<` not completing such a match is kept literally. -/
def stripTags (l : List Char) : List Char :=
  stripGo none l

/-- One-pass engine for `re.sub(r'\s+', ' ', text)` (line 99): the flag
records whether the previous character was inside a whitespace run that has
already emitted its single replacement space. -/
def collapseGo : Bool → List Char → List Char
  | _, [] => []
  | inRun, c :: rest =>
    if isPySpace c then
      if inRun then collapseGo true rest else ' ' :: collapseGo true rest
    else c :: collapseGo false rest

/-- `re.sub(r'\s+', ' ', text)` (line 99): every maximal nonempty run of
whitespace becomes one space. -/
def collapseWs (l : List Char) : List Char :=
  collapseGo false l

/-- Python `str.strip()` (line 99): drop leading and trailing whitespace. -/
def pyStrip (l : List Char) : List Char :=
  ((l.dropWhile isPySpace).reverse.dropWhile isPySpace).reverse

/-- The body-cleaning pipeline of `wait_for_code` (lines 97-99):
HTML-unescape, strip tags, collapse whitespace, strip. -/
def cleanBody (raw : String) : String :=
  String.mk (pyStrip (collapseWs (stripTags (unescapeHtml raw.data))))

/-- The extraction loop `for source in [subject, text_content]` of
`wait_for_code` (lines 104-109): search the raw subject first, the cleaned
body second, return the first match. -/
def extractCode (subject raw : String) : Option String :=
  match strictCode subject with
  | some c => some c
  | none => strictCode (cleanBody raw)

/-- One message of the mailbox API response (`{id, subject,
content|html_content}`). -/
structure EmailMsg where
  id : Nat
  subject : String
  content : Option String
  htmlContent : Option String
deriving DecidableEq, Repr

/-- Python `a or b` on an optional string `a` (missing key or empty string
is falsy), as in `latest_email.get('content') or
latest_email.get('html_content') or ''` (line 94). -/
def pyOrStr (a : Option String) (b : String) : String :=
  match a with
  | some s => if s.isEmpty then b else s
  | none => b

/-- `raw_content` of `wait_for_code` (line 94). -/
def rawContent (m : EmailMsg) : String :=
  pyOrStr m.content (pyOrStr m.htmlContent "")

/-- The outcome of one iteration of the poll loop's HTTP request
(lines 84-85): either the request/JSON parsing raises (`err`, swallowed by
the bare `except`), or it yields the mailbox's message list, newest first. -/
inductive PollOutcome
  | err : PollOutcome
  | msgs : List EmailMsg → PollOutcome
deriving DecidableEq, Repr

/-- The body of the `while time.time() - start < 120` loop of
`wait_for_code` (lines 82-112), driven by the finite list of poll outcomes
that occur before the 120 s deadline.  `seen` is the `processed_ids` set.
Besides the returned code (`none` models falling out of the loop at the
deadline and returning `None`), the second component instruments the loop
with the list of message ids for which code extraction was actually run. -/
def wait_for_code_loop : List PollOutcome → List Nat → Option String × List Nat
  | [], _ => (none, [])
  | PollOutcome.err :: rest, seen => wait_for_code_loop rest seen
  | PollOutcome.msgs [] :: rest, seen => wait_for_code_loop rest seen
  | PollOutcome.msgs (m :: _) :: rest, seen =>
    if m.id ∈ seen then wait_for_code_loop rest seen
    else
      match extractCode m.subject (rawContent m) with
      | some c => (some c, [m.id])
      | none =>
        let r := wait_for_code_loop rest (m.id :: seen)
        (r.1, m.id :: r.2)

/-- `wait_for_code` (lines 76-114): polls with a fresh empty
`processed_ids` set and returns the extracted code, or `None` at deadline
expiry. -/
def wait_for_code (polls : List PollOutcome) : Option String :=
  (wait_for_code_loop polls []).1

/-- The `for attempt in range(15)` challenge loop of `register_one_account`
(lines 216-224), with `present i` telling whether the numeric-code input is
present when iteration `i` checks for it.  The first argument is the current
iteration index, the second the remaining iteration budget.  Returns
`pass_check` together with the number of `force_inject_turnstile`-and-sleep
iterations that were run (`force_inject_turnstile` itself never raises: all
its driver interaction is inside its own try/except blocks, lines 118-167). -/
def challengeLoop (present : Nat → Bool) : Nat → Nat → Bool × Nat
  | _, 0 => (false, 0)
  | i, b + 1 =>
    if present i then (true, 0)
    else
      ((challengeLoop present (i + 1) b).1, (challengeLoop present (i + 1) b).2 + 1)

/-- The challenge stage: 15 iterations starting at index 0. -/
def defeatChallenge (present : Nat → Bool) : Bool × Nat :=
  challengeLoop present 0 15

/-- One cookie as returned by `Network.getAllCookies` or
`driver.get_cookies()`. -/
structure Cookie where
  name : String
  domain : String
  value : String
deriving DecidableEq, Repr

/-- The `client_key` selection loop of `register_one_account`
(lines 263-278): every cookie named `__client` overwrites `client_key` with
its value; the `'clerk' in domain` test only prints a log line and does not
affect the selection. -/
def selectClientKey (cookies : List Cookie) : Option String :=
  cookies.foldl (fun acc c => if c.name == "__client" then some c.value else acc) none

/-- `upload_to_server` (lines 44-62): posts the credential and only logs the
outcome; `some status` is the HTTP response status, `none` a transport error
raised during the post (swallowed by the function's own `except`).  Returns
whether the "server saved" success line was logged, i.e. whether the status
was 200 or 201.  The function never raises and returns nothing to its
caller. -/
def upload_to_server (res : Option Nat) : Bool :=
  match res with
  | some status => status == 200 || status == 201
  | none => false

/-- The environment of one `register_one_account` call: the outcome of every
external, fallible step the function performs, in program order.  A `Bool`
field is `true` when the corresponding call returns normally and `false`
when it raises (driver commands are remote WebDriver/HTTP calls and can all
raise). -/
structure Env where
  /-- Result of `create_temp_email()` (line 174); `none` covers both an
  unsuccessful API response and a raised-and-swallowed exception, the
  function returning `None` either way (lines 64-74). -/
  tempEmail : Option String
  /-- Whether `uc.Chrome(...)` (line 184) returns a session rather than
  raising.  It runs outside the `try` block. -/
  chromeOk : Bool
  /-- Whether `driver.set_window_size(800, 900)` (line 185) returns rather
  than raising.  It also runs outside the `try` block, after the session
  exists. -/
  setupOk : Bool
  /-- Whether the navigation / sign-in / form-fill steps (lines 191-211)
  all complete without raising (e.g. without a `TimeoutException`). -/
  uiOk : Bool
  /-- Whether the numeric-code input is present when challenge-loop
  iteration `i` checks `driver.find_elements` (line 217). -/
  challengePresent : Nat → Bool
  /-- Whether the 10 s `WebDriverWait` for the OTP input (line 233)
  succeeds rather than raising `TimeoutException`. -/
  otpWaitOk : Bool
  /-- The mailbox poll outcomes seen by `wait_for_code` before its 120 s
  deadline. -/
  polls : List PollOutcome
  /-- Whether `otp_input.send_keys`, the settle sleep and the
  `driver.current_url` read (lines 238-242) complete without raising (the
  username sub-block, lines 243-251, swallows all its own errors). -/
  submitOk : Bool
  /-- Whether `driver.execute_cdp_cmd('Network.getAllCookies', {})`
  (line 256) succeeds. -/
  cdpOk : Bool
  /-- The cookies returned by the CDP call, in enumeration order. -/
  cdpCookies : List Cookie
  /-- Whether the fallback `driver.get_cookies()` (line 260) succeeds. -/
  fbOk : Bool
  /-- The cookies returned by the fallback page-scoped jar. -/
  fbCookies : List Cookie
  /-- The registry response inside `upload_to_server`: `some status` or
  `none` for a transport error. -/
  uploadRes : Option Nat
  /-- Whether the `driver.quit()` issued inside the `try` block (line 228
  on the challenge-failure path, line 287 on the success path; at most one
  of the two runs) returns rather than raising. -/
  quitOk : Bool

/-- Cookie extraction (lines 253-260): the CDP result, else the page-scoped
fallback; `none` when the fallback itself raises (which propagates to the
attempt's `except` block). -/
def getAllCookies (e : Env) : Option (List Cookie) :=
  if e.cdpOk then some e.cdpCookies
  else if e.fbOk then some e.fbCookies
  else none

/-- How the `try` block of `register_one_account` (lines 190-298) is left:
an exception caught by the `except` clause, the `return False` of the
challenge-failure path (line 229), or falling through with the final value
of `success`.  Each carries the output-store lines written so far and the
`(credential, upload-logged-success)` record of any `upload_to_server`
call made so far. -/
inductive TryOutcome
  | exc (lines : List String) (uploads : List (String × Bool))
  | retFalse (lines : List String) (uploads : List (String × Bool))
  | fall (success : Bool) (lines : List String) (uploads : List (String × Bool))

/-- The `try` block body (lines 190-298) as a function of the environment,
in program order: UI steps, challenge loop, OTP wait, mailbox poll, code
submission, cookie extraction, `__client` selection, then on success the
file append, the upload and the in-`try` `driver.quit()` before
`success = True` (lines 281-288). -/
def tryBody (e : Env) : TryOutcome :=
  if !e.uiOk then TryOutcome.exc [] []
  else if !(defeatChallenge e.challengePresent).1 then
    (if e.quitOk then TryOutcome.retFalse [] [] else TryOutcome.exc [] [])
  else if !e.otpWaitOk then TryOutcome.exc [] []
  else
    match wait_for_code e.polls with
    | none => TryOutcome.fall false [] []
    | some _code =>
      if !e.submitOk then TryOutcome.exc [] []
      else
        match getAllCookies e with
        | none => TryOutcome.exc [] []
        | some cookies =>
          match selectClientKey cookies with
          | none => TryOutcome.fall false [] []
          | some key =>
            if e.quitOk then
              TryOutcome.fall true [key] [(key, upload_to_server e.uploadRes)]
            else
              TryOutcome.exc [key] [(key, upload_to_server e.uploadRes)]

/-- What one `register_one_account` call returns: a boolean, or a raised
exception propagating to the caller. -/
inductive AttemptResult
  | ret (b : Bool)
  | raised
deriving DecidableEq, Repr

/-- Observable outcome of one `register_one_account` call. -/
structure AttemptOut where
  result : AttemptResult
  /-- Lines appended to the output store by this attempt. -/
  lines : List String
  /-- `(credential, upload-logged-success)` for each `upload_to_server`
  call made by this attempt. -/
  uploads : List (String × Bool)
  /-- Whether `uc.Chrome` returned an automation session. -/
  sessionCreated : Bool
  /-- Whether the `finally` block (lines 299-304: guarded `driver.quit()`
  plus the OS-level `taskkill`) ran. -/
  teardownRan : Bool

/-- `register_one_account` (lines 171-306).  The early `return False` when
no mailbox is acquired (line 176) happens before any session exists.
`uc.Chrome` (line 184) and `driver.set_window_size` (line 185) run outside
the `try`, so an exception there propagates to the caller and skips the
`finally` teardown.  Once the `try` block is entered, every exit path —
the in-`try` `return False`, a fall-through, or an exception caught by
`except` — runs the `finally` teardown and returns the current value of
`success`, which is `True` only when line 288 was reached. -/
def register_one_account (e : Env) : AttemptOut :=
  match e.tempEmail with
  | none =>
    { result := AttemptResult.ret false, lines := [], uploads := [],
      sessionCreated := false, teardownRan := false }
  | some _ =>
    if !e.chromeOk then
      { result := AttemptResult.raised, lines := [], uploads := [],
        sessionCreated := false, teardownRan := false }
    else if !e.setupOk then
      { result := AttemptResult.raised, lines := [], uploads := [],
        sessionCreated := true, teardownRan := false }
    else
      match tryBody e with
      | TryOutcome.exc ls us =>
        { result := AttemptResult.ret false, lines := ls, uploads := us,
          sessionCreated := true, teardownRan := true }
      | TryOutcome.retFalse ls us =>
        { result := AttemptResult.ret false, lines := ls, uploads := us,
          sessionCreated := true, teardownRan := true }
      | TryOutcome.fall s ls us =>
        { result := AttemptResult.ret s, lines := ls, uploads := us,
          sessionCreated := true, teardownRan := true }

/-- The `__main__` batch loop (lines 310-328) from the point just after the
output store is truncated (line 315), accumulating the output-store
contents and `success_count`.  The third component records whether the loop
ran to completion and printed the final tally; an exception escaping
`register_one_account` aborts it. -/
def runBatchAux : List Env → List String → Nat → List String × Nat × Bool
  | [], lines, cnt => (lines, cnt, true)
  | e :: rest, lines, cnt =>
    match (register_one_account e).result with
    | AttemptResult.raised => (lines ++ (register_one_account e).lines, cnt, false)
    | AttemptResult.ret b =>
      runBatchAux rest (lines ++ (register_one_account e).lines)
        (if b then cnt + 1 else cnt)

/-- A whole batch run: the output store is truncated once at start
(`with open(OUTPUT_FILE, "w")`, line 315), then the attempts run
sequentially. -/
def runBatch (envs : List Env) : List String × Nat × Bool :=
  runBatchAux envs [] 0

/-! Concrete fixtures used by witnesses and counterexamples. -/

/-- The spec's worked example message: subject `"Your code: 123456"`,
body `"<p>Code 654321</p>"`. -/
def msgWithCode : EmailMsg :=
  { id := 1, subject := "Your code: 123456",
    content := some "<p>Code 654321</p>", htmlContent := none }

/-- A message with no six-digit run in subject or body. -/
def msgNoCode : EmailMsg :=
  { id := 2, subject := "Welcome", content := some "<p>No digits here</p>",
    htmlContent := none }

/-- The spec's worked example cookie on the authentication sub-domain. -/
def clerkCookie : Cookie :=
  { name := "__client", domain := "clerk.orchids.app", value := "B" }

/-- The spec's worked example cookie on the parent domain. -/
def parentCookie : Cookie :=
  { name := "__client", domain := "orchids.app", value := "A" }

/-- An environment in which every external step succeeds: the mailbox is
acquired, the browser session starts, the UI flow completes, the challenge
input is present at the first check, the first poll delivers
`msgWithCode`, and cookie extraction returns `cookies`. -/
def baseEnv (cookies : List Cookie) (up : Option Nat) (q : Bool) : Env :=
  { tempEmail := some "user@test", chromeOk := true, setupOk := true,
    uiOk := true, challengePresent := fun _ => true, otpWaitOk := true,
    polls := [PollOutcome.msgs [msgWithCode]], submitOk := true,
    cdpOk := true, cdpCookies := cookies, fbOk := true, fbCookies := [],
    uploadRes := up, quitOk := q }

/-- A fully successful attempt environment. -/
def goodEnv : Env := baseEnv [clerkCookie] (some 200) true

/-- Like `goodEnv` but the numeric-code input never appears in any of the
15 challenge-loop checks. -/
def envChallengeStuck : Env :=
  { goodEnv with challengePresent := fun _ => false }

/-- Like `goodEnv` but the `driver.quit()` on line 287 — after the
credential line is written, before `success = True` — raises. -/
def envQuitRaises : Env := baseEnv [clerkCookie] (some 200) false

/-- Like `goodEnv` but `uc.Chrome(...)` (line 184) raises. -/
def envChromeRaises : Env := { goodEnv with chromeOk := false }

/-- Like `goodEnv` but `driver.set_window_size` (line 185) raises after the
session was created. -/
def envSetupRaises : Env := { goodEnv with setupOk := false }

/-- A successful attempt whose registry upload ends with outcome `r`. -/
def envUpload (r : Option Nat) : Env := baseEnv [clerkCookie] r true

/-- A successful attempt whose cookie enumeration lists the
clerk-sub-domain `__client` cookie before the parent-domain one. -/
def envClerkFirst : Env := baseEnv [clerkCookie, parentCookie] (some 200) true

/-- Whether one poll outcome can yield a code: it is a fetched, nonempty
message list whose newest message's subject or cleaned body contains a
qualifying six-digit run. -/
def pollHasNoCode : PollOutcome → Bool
  | PollOutcome.err => true
  | PollOutcome.msgs [] => true
  | PollOutcome.msgs (m :: _) => (extractCode m.subject (rawContent m)).isNone

/-- The `__client` value actually selected, described as the claim words
it: the value of the last cookie named `__client` in enumeration order. -/
def lastClientValue (cookies : List Cookie) : Option String :=
  (cookies.reverse.find? (fun c => c.name == "__client")).map Cookie.value

/-! Helper lemmas. -/

theorem challengeLoop_stuck (p : Nat → Bool) :
    ∀ (b i : Nat), (∀ j, j < b → p (i + j) = false) →
      challengeLoop p i b = (false, b) := by
  intro b
  induction b with
  | zero => intro i _; rfl
  | succ n ih =>
    intro i h
    have h0 : p i = false := by simpa using h 0 (Nat.succ_pos n)
    have hrec := ih (i + 1) (fun j hj => by
      have := h (j + 1) (by omega)
      rwa [show i + (j + 1) = i + 1 + j from by omega] at this)
    simp [challengeLoop, h0, hrec]

theorem challengeLoop_hit (p : Nat → Bool) :
    ∀ (k b i : Nat), k < b → (∀ j, j < k → p (i + j) = false) →
      p (i + k) = true → challengeLoop p i b = (true, k) := by
  intro k
  induction k with
  | zero =>
    intro b i hb _ hk
    cases b with
    | zero => omega
    | succ n =>
      have : p i = true := by simpa using hk
      simp [challengeLoop, this]
  | succ m ih =>
    intro b i hb hlow hk
    cases b with
    | zero => omega
    | succ n =>
      have h0 : p i = false := by simpa using hlow 0 (Nat.succ_pos m)
      have hrec := ih n (i + 1) (by omega)
        (fun j hj => by
          have := hlow (j + 1) (by omega)
          rwa [show i + (j + 1) = i + 1 + j from by omega] at this)
        (by rwa [show i + (m + 1) = i + 1 + m from by omega] at hk)
      simp [challengeLoop, h0, hrec]

theorem wait_no_code_loop : ∀ (polls : List PollOutcome) (seen : List Nat),
    (∀ q ∈ polls, pollHasNoCode q = true) →
      (wait_for_code_loop polls seen).1 = none := by
  intro polls
  induction polls with
  | nil => intro seen _; rfl
  | cons q rest ih =>
    intro seen h
    have hq := h q (List.mem_cons_self q rest)
    have hrest : ∀ p ∈ rest, pollHasNoCode p = true :=
      fun p hp => h p (List.mem_cons_of_mem q hp)
    match q with
    | PollOutcome.err => simpa [wait_for_code_loop] using ih seen hrest
    | PollOutcome.msgs [] => simpa [wait_for_code_loop] using ih seen hrest
    | PollOutcome.msgs (m :: l) =>
      rw [pollHasNoCode, Option.isNone_iff_eq_none] at hq
      by_cases hm : m.id ∈ seen
      · simpa [wait_for_code_loop, hm] using ih seen hrest
      · simp only [wait_for_code_loop, hm, if_false, hq]
        exact ih (m.id :: seen) hrest

theorem wait_trace_fresh : ∀ (polls : List PollOutcome) (seen : List Nat),
    ((wait_for_code_loop polls seen).2).Nodup ∧
      ∀ x ∈ (wait_for_code_loop polls seen).2, x ∉ seen := by
  intro polls
  induction polls with
  | nil => intro seen; refine ⟨by simp [wait_for_code_loop], by simp [wait_for_code_loop]⟩
  | cons q rest ih =>
    intro seen
    match q with
    | PollOutcome.err => simpa [wait_for_code_loop] using ih seen
    | PollOutcome.msgs [] => simpa [wait_for_code_loop] using ih seen
    | PollOutcome.msgs (m :: l) =>
      by_cases hm : m.id ∈ seen
      · simpa [wait_for_code_loop, hm] using ih seen
      · cases hx : extractCode m.subject (rawContent m) with
        | some c =>
          refine ⟨by simp [wait_for_code_loop, hm, hx], ?_⟩
          intro x hxx
          simp [wait_for_code_loop, hm, hx] at hxx
          simpa [hxx] using hm
        | none =>
          obtain ⟨hnd, hfr⟩ := ih (m.id :: seen)
          constructor
          · simp only [wait_for_code_loop, hm, if_false, hx, List.nodup_cons]
            exact ⟨fun hmem => (hfr m.id hmem) (List.mem_cons_self m.id seen), hnd⟩
          · intro x hxx
            simp only [wait_for_code_loop, hm, if_false, hx, List.mem_cons] at hxx
            cases hxx with
            | inl h1 => simpa [h1] using hm
            | inr h2 =>
              intro hc
              exact (hfr x h2) (List.mem_cons_of_mem _ hc)

theorem wait_dup_skip (m : EmailMsg) (l1 l2 : List EmailMsg)
    (rest : List PollOutcome) (seen : List Nat) :
    wait_for_code_loop
        (PollOutcome.msgs (m :: l1) :: PollOutcome.msgs (m :: l2) :: rest) seen =
      wait_for_code_loop (PollOutcome.msgs (m :: l1) :: rest) seen := by
  by_cases hm : m.id ∈ seen
  · simp [wait_for_code_loop, hm]
  · cases hx : extractCode m.subject (rawContent m) with
    | some c => simp [wait_for_code_loop, hm, hx]
    | none =>
      have hm2 : m.id ∈ m.id :: seen := List.mem_cons_self m.id seen
      simp [wait_for_code_loop, hm, hx, hm2]

theorem foldl_client_last : ∀ (cookies : List Cookie) (a : Option String),
    cookies.foldl (fun acc c => if c.name == "__client" then some c.value else acc) a =
      match cookies.reverse.find? (fun c => c.name == "__client") with
      | some c => some c.value
      | none => a := by
  intro cookies
  induction cookies with
  | nil => intro a; rfl
  | cons c cs ih =>
    intro a
    simp only [List.foldl_cons, List.reverse_cons]
    rw [ih, List.find?_append]
    cases hcs : cs.reverse.find? (fun c => c.name == "__client") with
    | some d => simp
    | none =>
      by_cases hc : c.name == "__client" <;> simp [List.find?, hc]

theorem tryBody_shape (e : Env) (hq : e.quitOk = true) :
    tryBody e = TryOutcome.exc [] [] ∨ tryBody e = TryOutcome.retFalse [] [] ∨
    tryBody e = TryOutcome.fall false [] [] ∨
    ∃ key, tryBody e = TryOutcome.fall true [key] [(key, upload_to_server e.uploadRes)] := by
  unfold tryBody
  cases hui : e.uiOk with
  | false => simp
  | true =>
    cases hdc : (defeatChallenge e.challengePresent).1 with
    | false => simp [hq]
    | true =>
      cases how : e.otpWaitOk with
      | false => simp
      | true =>
        simp only [Bool.not_true, Bool.false_eq_true, if_false]
        cases hwc : wait_for_code e.polls with
        | none => simp
        | some code =>
          cases hsub : e.submitOk with
          | false => simp
          | true =>
            simp only [Bool.not_true, Bool.false_eq_true, if_false]
            cases hga : getAllCookies e with
            | none => simp
            | some cookies =>
              cases hsk : selectClientKey cookies with
              | none => simp [hsk]
              | some key => simp [hsk, hq]

theorem attempt_no_raise (e : Env) (hc : e.chromeOk = true) (hs : e.setupOk = true) :
    ∃ b, (register_one_account e).result = AttemptResult.ret b := by
  unfold register_one_account
  cases hte : e.tempEmail with
  | none => exact ⟨false, rfl⟩
  | some em =>
    simp only [hc, hs, Bool.not_true, Bool.false_eq_true, if_false]
    cases htb : tryBody e <;> exact ⟨_, rfl⟩

theorem raised_no_lines (e : Env) :
    (register_one_account e).result = AttemptResult.raised →
      (register_one_account e).lines = [] := by
  unfold register_one_account
  cases hte : e.tempEmail with
  | none => simp
  | some em =>
    cases hc : e.chromeOk with
    | false => simp
    | true =>
      cases hs : e.setupOk with
      | false => simp
      | true =>
        simp only [Bool.not_true, Bool.false_eq_true, if_false]
        cases htb : tryBody e <;> simp

theorem attempt_lines_count (e : Env) (hq : e.quitOk = true) :
    (register_one_account e).lines.length =
      (if (register_one_account e).result = AttemptResult.ret true then 1 else 0) := by
  unfold register_one_account
  cases hte : e.tempEmail with
  | none => simp
  | some em =>
    cases hc : e.chromeOk with
    | false => simp
    | true =>
      cases hs : e.setupOk with
      | false => simp
      | true =>
        simp only [Bool.not_true, Bool.false_eq_true, if_false]
        rcases tryBody_shape e hq with h | h | h | ⟨key, h⟩ <;> simp [h]

theorem teardown_after_setup (e : Env) (hs : e.setupOk = true) :
    (register_one_account e).sessionCreated = true →
      (register_one_account e).teardownRan = true := by
  unfold register_one_account
  cases hte : e.tempEmail with
  | none => simp
  | some em =>
    cases hc : e.chromeOk with
    | false => simp
    | true =>
      simp only [hs, Bool.not_true, Bool.false_eq_true, if_false]
      cases htb : tryBody e <;> simp

theorem runBatchAux_append : ∀ (envs : List Env) (ls : List String) (c : Nat),
    ∃ t, (runBatchAux envs ls c).1 = ls ++ t := by
  intro envs
  induction envs with
  | nil => intro ls c; exact ⟨[], by simp [runBatchAux]⟩
  | cons e rest ih =>
    intro ls c
    unfold runBatchAux
    cases h : (register_one_account e).result with
    | raised => exact ⟨(register_one_account e).lines, rfl⟩
    | ret b =>
      obtain ⟨t, ht⟩ := ih (ls ++ (register_one_account e).lines) (if b then c + 1 else c)
      exact ⟨(register_one_account e).lines ++ t, by rw [ht, List.append_assoc]⟩

theorem runBatchAux_count : ∀ (envs : List Env), (∀ e ∈ envs, e.quitOk = true) →
    ∀ (ls : List String) (c : Nat),
      (runBatchAux envs ls c).1.length + c = (runBatchAux envs ls c).2.1 + ls.length := by
  intro envs
  induction envs with
  | nil => intro _ ls c; simp [runBatchAux]; omega
  | cons e rest ih =>
    intro h ls c
    have he := h e (List.mem_cons_self e rest)
    have hrest : ∀ x ∈ rest, x.quitOk = true :=
      fun x hx => h x (List.mem_cons_of_mem e hx)
    have hlen := attempt_lines_count e he
    unfold runBatchAux
    cases hr : (register_one_account e).result with
    | raised =>
      have hl : (register_one_account e).lines = [] := raised_no_lines e hr
      simp [hl]
      omega
    | ret b =>
      rw [hr] at hlen
      cases b with
      | true =>
        have hl : (register_one_account e).lines.length = 1 := by simpa using hlen
        have hrec := ih hrest (ls ++ (register_one_account e).lines) (c + 1)
        simp only [List.length_append, hl] at hrec
        simp [hl]
        omega
      | false =>
        have hl : (register_one_account e).lines.length = 0 := by simpa using hlen
        have hrec := ih hrest (ls ++ (register_one_account e).lines) c
        simp only [List.length_append, hl] at hrec
        simp [hl]
        omega

theorem runBatchAux_completes : ∀ (envs : List Env),
    (∀ e ∈ envs, e.chromeOk = true ∧ e.setupOk = true) →
    ∀ (ls : List String) (c : Nat), (runBatchAux envs ls c).2.2 = true := by
  intro envs
  induction envs with
  | nil => intro _ ls c; rfl
  | cons e rest ih =>
    intro h ls c
    have he := h e (List.mem_cons_self e rest)
    have hrest : ∀ x ∈ rest, x.chromeOk = true ∧ x.setupOk = true :=
      fun x hx => h x (List.mem_cons_of_mem e hx)
    obtain ⟨b, hb⟩ := attempt_no_raise e he.1 he.2
    unfold runBatchAux
    simp only [hb]
    exact ih hrest _ _

/-! Claim theorems. -/

/-- C1: the spec requires the `__client` cookie of the most specific
authentication sub-domain (`clerk.orchids.app`, value `"B"`) to be selected
regardless of enumeration order; on the code, with the clerk cookie
enumerated first and the parent-domain cookie (`orchids.app`, value `"A"`)
second, the selection loop returns `"A"`, not `"B"`: every `__client`
cookie overwrites `client_key`, the clerk-domain test only logs. -/
theorem client_selection_ignores_clerk_domain :
    selectClientKey [clerkCookie, parentCookie] = some "A" ∧
    selectClientKey [clerkCookie, parentCookie] ≠ some "B" := by
  exact ⟨rfl, by decide⟩

/-- C2: code extraction searches the subject first and the
unescaped/tag-stripped/whitespace-collapsed body second for the strict
six-digit pattern and returns the first match; on the spec's worked example
the subject's `"123456"` wins over the body's `"654321"`; a seven-digit run
never matches. -/
theorem code_extraction_subject_first :
    (∀ (s r c : String), strictCode s = some c → extractCode s r = some c) ∧
    (∀ (s r : String), strictCode s = none →
      extractCode s r = strictCode (cleanBody r)) ∧
    extractCode "Your code: 123456" "<p>Code 654321</p>" = some "123456" ∧
    strictCode "1234567" = none := by
  refine ⟨?_, ?_, by decide, by decide⟩
  · intro s r c h
    simp [extractCode, h]
  · intro s r h
    simp [extractCode, h]

/-- C2 witness: the pipeline at the spec's concrete inputs, via the
subject-first and body-second parts of the theorem. -/
theorem code_extraction_subject_first_witness :
    extractCode "Your code: 123456" "zzz" = some "123456" ∧
    extractCode "no digits" "<p>Code 654321</p>" = some "654321" := by
  constructor
  · exact code_extraction_subject_first.1 ("Your code: 123456") ("zzz")
      ("123456") (by decide)
  · exact (code_extraction_subject_first.2.1 ("no digits")
      ("<p>Code 654321</p>") (by decide)).trans (by decide)

/-- C3: the challenge stage checks for the numeric-code input at the start
of each of its 15 iterations and exits successfully at the first check that
finds it, having probed exactly once per earlier iteration and not in the
exit iteration; if the input never appears, the loop runs exactly 15
probe-and-sleep iterations and the attempt returns failure. -/
theorem defeat_challenge_bounded :
    (∀ (p : Nat → Bool) (k : Nat), k < 15 → (∀ j, j < k → p j = false) →
      p k = true → defeatChallenge p = (true, k)) ∧
    (∀ (p : Nat → Bool), (∀ j, j < 15 → p j = false) →
      defeatChallenge p = (false, 15)) ∧
    (∀ (e : Env) (em : String), e.tempEmail = some em → e.chromeOk = true →
      e.setupOk = true → e.uiOk = true →
      (∀ j, j < 15 → e.challengePresent j = false) →
      (register_one_account e).result = AttemptResult.ret false) := by
  refine ⟨?_, ?_, ?_⟩
  · intro p k hk hlow hp
    exact challengeLoop_hit p k 15 0 hk (fun j hj => by simpa using hlow j hj)
      (by simpa using hp)
  · intro p h
    exact challengeLoop_stuck p 15 0 (fun j hj => by simpa using h j hj)
  · intro e em hte hc hs hui hstuck
    have hdc : defeatChallenge e.challengePresent = (false, 15) :=
      challengeLoop_stuck _ 15 0 (fun j hj => by simpa using hstuck j hj)
    have htb : tryBody e =
        (if e.quitOk then TryOutcome.retFalse [] [] else TryOutcome.exc [] []) := by
      unfold tryBody
      simp [hui, hdc]
    unfold register_one_account
    rw [hte]
    simp only [hc, hs, Bool.not_true, Bool.false_eq_true, if_false]
    rw [htb]
    cases hquit : e.quitOk <;> simp

/-- C3 witness: input present from check 5 on → success after 5 probes;
never present → failure after 15 probes; never present in a full attempt
environment → the attempt returns `False`. -/
theorem defeat_challenge_bounded_witness :
    defeatChallenge (fun i => decide (5 ≤ i)) = (true, 5) ∧
    defeatChallenge (fun _ => false) = (false, 15) ∧
    (register_one_account envChallengeStuck).result = AttemptResult.ret false := by
  refine ⟨?_, ?_, ?_⟩
  · refine defeat_challenge_bounded.1 _ 5 (by omega) (fun j hj => ?_) (by simp)
    simp only [decide_eq_false_iff_not]
    omega
  · exact defeat_challenge_bounded.2.1 _ (fun j hj => rfl)
  · exact defeat_challenge_bounded.2.2 envChallengeStuck ("user@test")
      rfl rfl rfl rfl (fun j hj => rfl)

/-- C4: a transport/parse error in a single poll iteration is swallowed and
polling continues with unchanged state; when no poll of the pre-deadline
schedule can yield a qualifying six-digit run, the loop exhausts the
schedule and returns the CodeTimeout outcome `none`; the embedding is a
total function, matching the bare `except` that keeps every iteration's
exception away from the caller. -/
theorem poll_errors_swallowed :
    (∀ (rest : List PollOutcome) (seen : List Nat),
      wait_for_code_loop (PollOutcome.err :: rest) seen =
        wait_for_code_loop rest seen) ∧
    (∀ (polls : List PollOutcome),
      (∀ q ∈ polls, pollHasNoCode q = true) → wait_for_code polls = none) := by
  exact ⟨fun rest seen => rfl, fun polls h => wait_no_code_loop polls [] h⟩

/-- C4 witness: a schedule with an error poll and code-less messages ends
in `none`. -/
theorem poll_errors_swallowed_witness :
    wait_for_code [PollOutcome.err, PollOutcome.msgs [msgNoCode],
      PollOutcome.msgs [msgNoCode]] = none :=
  poll_errors_swallowed.2 _ (by decide)

/-- C5: within one attempt's polling, each message identifier undergoes
code extraction at most once: the instrumented processing trace of the poll
loop never repeats an id, and a poll whose newest message repeats the
previous poll's newest id is skipped outright. -/
theorem message_processed_once :
    (∀ (polls : List PollOutcome), ((wait_for_code_loop polls []).2).Nodup) ∧
    (∀ (m : EmailMsg) (l1 l2 : List EmailMsg) (rest : List PollOutcome)
      (seen : List Nat),
      wait_for_code_loop
          (PollOutcome.msgs (m :: l1) :: PollOutcome.msgs (m :: l2) :: rest) seen =
        wait_for_code_loop (PollOutcome.msgs (m :: l1) :: rest) seen) :=
  ⟨fun polls => (wait_trace_fresh polls []).1, wait_dup_skip⟩

/-- C6 counterexample: one attempt extracts the credential and appends its
line, but the in-`try` `driver.quit()` (line 287) raises before
`success = True`, so the batch has 1 attempt, 0 successes and 1 stored
line — not exactly M lines for M successes. -/
theorem batch_line_without_success :
    (runBatch [envQuitRaises]).1.length = 1 ∧
    (runBatch [envQuitRaises]).2.1 = 0 := by
  exact ⟨rfl, rfl⟩

/-- C6 amended: the output store starts empty (truncated once) and is only
appended to; and provided no attempt's in-`try` session release raises
after the line is written, a batch leaves exactly as many lines as its
success tally. -/
theorem batch_lines_match_successes :
    (∀ (envs : List Env) (ls : List String) (c : Nat),
      ∃ t, (runBatchAux envs ls c).1 = ls ++ t) ∧
    (∀ (envs : List Env), (∀ e ∈ envs, e.quitOk = true) →
      (runBatch envs).1.length = (runBatch envs).2.1) := by
  refine ⟨runBatchAux_append, fun envs h => ?_⟩
  have hcount := runBatchAux_count envs h [] 0
  simpa [runBatch] using hcount

/-- C6 amended witness: a two-attempt batch (one success, one with no
`__client` cookie) leaves exactly one line. -/
theorem batch_lines_match_successes_witness :
    (runBatch [goodEnv, baseEnv [] (some 200) true]).1.length =
      (runBatch [goodEnv, baseEnv [] (some 200) true]).2.1 := by
  refine batch_lines_match_successes.2 _ ?_
  intro e he
  rcases List.mem_cons.mp he with h | h
  · rw [h]; rfl
  · rw [List.mem_singleton] at h
    rw [h]; rfl

/-- C7 counterexample: `uc.Chrome` (line 184) runs outside the `try`
block, so when it raises, `register_one_account` propagates the exception
and the batch loop aborts before completing its iterations or printing the
tally. -/
theorem chrome_failure_aborts_batch :
    (register_one_account envChromeRaises).result = AttemptResult.raised ∧
    (runBatch [envChromeRaises, goodEnv]).2.2 = false := by
  exact ⟨rfl, rfl⟩

/-- C7 amended: every failure arising after the pre-`try` session/window
setup is contained to a boolean outcome, and a batch whose attempts all get
past that setup completes all its iterations and reaches the final tally;
an exception while creating the automation session, however, propagates. -/
theorem attempt_failures_contained :
    (∀ (e : Env), e.chromeOk = true → e.setupOk = true →
      ∃ b, (register_one_account e).result = AttemptResult.ret b) ∧
    (∀ (envs : List Env), (∀ e ∈ envs, e.chromeOk = true ∧ e.setupOk = true) →
      (runBatch envs).2.2 = true) := by
  exact ⟨attempt_no_raise, fun envs h => runBatchAux_completes envs h [] 0⟩

/-- C7 amended witness: a batch whose two attempts both get past session
creation completes even though one attempt fails internally. -/
theorem attempt_failures_contained_witness :
    (∃ b, (register_one_account envQuitRaises).result = AttemptResult.ret b) ∧
    (runBatch [goodEnv, envQuitRaises]).2.2 = true := by
  constructor
  · exact attempt_failures_contained.1 envQuitRaises rfl rfl
  · refine attempt_failures_contained.2 _ ?_
    intro e he
    rcases List.mem_cons.mp he with h | h
    · rw [h]; exact ⟨rfl, rfl⟩
    · rw [List.mem_singleton] at h
      rw [h]; exact ⟨rfl, rfl⟩

/-- C8 counterexample: `driver.set_window_size` (line 185) raises after
`uc.Chrome` created the session but before the `try` block is entered: the
attempt exits by exception with a created session and the `finally`
teardown never runs. -/
theorem setup_error_skips_teardown :
    (register_one_account envSetupRaises).sessionCreated = true ∧
    (register_one_account envSetupRaises).teardownRan = false ∧
    (register_one_account envSetupRaises).result = AttemptResult.raised := by
  exact ⟨rfl, rfl, rfl⟩

/-- C8 amended: on every exit path that enters the `try` block (the pre-try
window setup did not raise), an attempt with a created session runs the
`finally` teardown before returning — on success, on stage aborts and on
caught internal errors alike. -/
theorem teardown_on_all_try_paths :
    ∀ (e : Env), e.setupOk = true →
      (register_one_account e).sessionCreated = true →
      (register_one_account e).teardownRan = true :=
  teardown_after_setup

/-- C8 amended witness: a challenge-timeout attempt (an abort path) still
runs the teardown. -/
theorem teardown_on_all_try_paths_witness :
    (register_one_account envChallengeStuck).teardownRan = true :=
  teardown_on_all_try_paths envChallengeStuck rfl rfl

/-- C9: `upload_to_server` logs success exactly for statuses 200 and 201
and swallows any other status as well as transport errors; whatever the
upload outcome, an attempt that reached publication with an extracted
credential still returns success and its output-store line is still
written. -/
theorem publish_failure_nonfatal :
    (∀ (s : Nat), s ≠ 200 → s ≠ 201 → upload_to_server (some s) = false) ∧
    upload_to_server (some 200) = true ∧
    upload_to_server (some 201) = true ∧
    upload_to_server none = false ∧
    (∀ (r : Option Nat),
      (register_one_account (envUpload r)).result = AttemptResult.ret true ∧
      (register_one_account (envUpload r)).lines = ["B"]) := by
  refine ⟨?_, rfl, rfl, rfl, fun r => ⟨rfl, rfl⟩⟩
  intro s h1 h2
  simp only [upload_to_server, Bool.or_eq_false_iff, beq_eq_false_iff_ne, ne_eq]
  exact ⟨h1, h2⟩

/-- C9 witness: an HTTP 500 is classified as a swallowed failure. -/
theorem publish_failure_nonfatal_witness :
    upload_to_server (some 500) = false :=
  publish_failure_nonfatal.1 500 (by decide) (by decide)

/-- C10: the credential actually selected is the value of the last cookie
named `__client` in enumeration order (the clerk-domain check only logs),
so when the clerk cookie is enumerated before the parent-domain cookie the
parent-domain value `"A"` is the one persisted to the output store and
forwarded to the registry. -/
theorem last_client_cookie_wins :
    (∀ (cookies : List Cookie), selectClientKey cookies = lastClientValue cookies) ∧
    selectClientKey [clerkCookie, parentCookie] = some "A" ∧
    selectClientKey [parentCookie, clerkCookie] = some "B" ∧
    (register_one_account envClerkFirst).lines = ["A"] ∧
    (register_one_account envClerkFirst).uploads.map Prod.fst = ["A"] := by
  refine ⟨?_, rfl, rfl, rfl, rfl⟩
  intro cookies
  unfold selectClientKey lastClientValue
  rw [foldl_client_last]
  cases h : cookies.reverse.find? (fun c => c.name == "__client") <;> simp

end Orchids
